import Mathlib

/-!
Shallow embedding of the SHV broker testing device (src/src/main.rs).

The device mounts two nodes, `state/number` and `state/text`, each with a
`get` and a `set` method. Shared state is a `State { number: AtomicI32,
text: RwLock<String> }`. Setters compare the stored value to the parameter
and, only on a difference, store the new value and send a `chng` signal on
the node's mount path; they return `true` in every case, ignoring the
result of the signal send.
-/

namespace ShvDevice

/-- RPC values, as far as this device handles them. -/
inductive RpcValue where
  | vnull : RpcValue
  | vint : Int → RpcValue
  | vbool : Bool → RpcValue
  | vstr : String → RpcValue
  deriving DecidableEq

/-- Access levels of shvrpc, keyed by their numeric rank used for the
capability comparison (Browse < Read < Write < ... < Admin). -/
inductive AccessLevel where
  | browse | read | write | command | config | service | superService | devel | admin
  deriving DecidableEq

/-- Numeric rank of an access level; the ordering is the only thing the
dispatch uses. -/
def AccessLevel.toNat : AccessLevel → Nat
  | .browse => 1
  | .read => 8
  | .write => 16
  | .command => 24
  | .config => 32
  | .service => 40
  | .superService => 48
  | .devel => 56
  | .admin => 63

/-- Mount path of the number node (main.rs line 72). -/
def NUMBER_MOUNT : String := "state/number"

/-- Mount path of the text node (main.rs line 73). -/
def TEXT_MOUNT : String := "state/text"

/-- Signal name used by the setters (SIG_CHNG from shvclient). -/
def SIG_CHNG : String := "chng"

/-- Shared device state (main.rs lines 68-71): `number: AtomicI32`,
`text: RwLock<String>`. -/
structure State where
  number : Int
  text : String
  deriving DecidableEq

/-- State constructed at startup (main.rs line 85):
`AppState::new(State { number: 0.into(), text: "".to_string().into() })`. -/
def mainInitState : State := { number := 0, text := "" }

/-- Signal message as built by `RpcMessage::new_signal(path, SIG_CHNG, value)`. -/
structure Signal where
  path : String
  name : String
  value : RpcValue
  deriving DecidableEq

/-- Constructor mirroring `RpcMessage::new_signal`. -/
def newSignal (path sig : String) (v : RpcValue) : Signal :=
  { path := path, name := sig, value := v }

/-- RPC-level errors of the dispatch layer (spec §7 taxonomy). -/
inductive RpcError where
  | methodNotFound | permissionDenied | invalidParameter
  deriving DecidableEq

/-- Result value of a handler, mirroring Rust's `Result<RpcValue, _>`. -/
inductive RpcResult where
  | ok : RpcValue → RpcResult
  | err : RpcError → RpcResult
  deriving DecidableEq

/-- Output of one handler invocation: the state afterwards, the signal
messages passed to `send_message`, those the channel actually accepted, and
the handler's response (`Option<Result<..>>` in Rust; `none` means the
handler produced no result). -/
structure HandlerOut where
  state : State
  emitted : List Signal
  delivered : List Signal
  response : Option RpcResult
  deriving DecidableEq

/-- Outbound channel send (`client_cmd_tx.send_message`): succeeds iff the
channel is open; the first component is the `Result` the callers in main.rs
discard with `let _ = ...`, the second the messages the channel accepted. -/
def send_message (chanOpen : Bool) (sig : Signal) : Bool × List Signal :=
  if chanOpen then (true, [sig]) else (false, [])

/-- Handler of `get` on the number node (main.rs lines 89-91): atomic load of
the stored number, returned as the result. -/
def number_get (st : State) : HandlerOut :=
  { state := st, emitted := [], delivered := [], response := some (.ok (.vint st.number)) }

/-- Handler of `set` on the number node (main.rs lines 92-99): when the stored
number differs from the decoded parameter, store the parameter, build a
`chng` signal on NUMBER_MOUNT carrying it and send it, discarding the send
result; return `Some(Ok(true))` in every case. -/
def number_set (st : State) (chanOpen : Bool) (param : Int) : HandlerOut :=
  if st.number ≠ param then
    let sigchng := newSignal NUMBER_MOUNT SIG_CHNG (.vint param)
    let sent := send_message chanOpen sigchng
    { state := { st with number := param }, emitted := [sigchng],
      delivered := sent.2, response := some (.ok (.vbool true)) }
  else
    { state := st, emitted := [], delivered := [], response := some (.ok (.vbool true)) }

/-- Lock and effect events performed by the text node's handlers on the
`RwLock<String>` field. -/
inductive LockEvent where
  | readAcq | readRel | writeAcq | writeRel
  | store : String → LockEvent
  | send : Signal → LockEvent
  deriving DecidableEq

/-- Handler of `get` on the text node (main.rs lines 104-107): scoped read
acquisition, the value is copied out before the result is built. -/
def text_get (st : State) : HandlerOut × List LockEvent :=
  ({ state := st, emitted := [], delivered := [],
     response := some (.ok (.vstr st.text)) },
   [.readAcq, .readRel])

/-- Handler of `set` on the text node (main.rs lines 108-116), together with
the sequence of lock and effect events its body performs. The read guard in
the `if` condition is a temporary dropped once the comparison finishes, so it
is released before the write guard is requested; the write guard scope covers
the store and the signal send. Returns `Some(Ok(true))` in every case. -/
def text_set (st : State) (chanOpen : Bool) (param : String) : HandlerOut × List LockEvent :=
  if st.text ≠ param then
    let sigchng := newSignal TEXT_MOUNT SIG_CHNG (.vstr param)
    let sent := send_message chanOpen sigchng
    ({ state := { st with text := param }, emitted := [sigchng],
       delivered := sent.2, response := some (.ok (.vbool true)) },
     [.readAcq, .readRel, .writeAcq, .store param, .send sigchng, .writeRel])
  else
    ({ state := st, emitted := [], delivered := [], response := some (.ok (.vbool true)) },
     [.readAcq, .readRel])

/-- Lock counts held after a list of events, starting from `r` read holds and
`w` write holds; `none` when a release has no matching acquisition. -/
def heldAfter : List LockEvent → Nat → Nat → Option (Nat × Nat)
  | [], r, w => some (r, w)
  | .readAcq :: es, r, w => heldAfter es (r + 1) w
  | .readRel :: es, r, w => if r = 0 then none else heldAfter es (r - 1) w
  | .writeAcq :: es, r, w => heldAfter es r (w + 1)
  | .writeRel :: es, r, w => if w = 0 then none else heldAfter es r (w - 1)
  | .store _ :: es, r, w => heldAfter es r w
  | .send _ :: es, r, w => heldAfter es r w

/-- Every acquisition in the trace is matched by a release: starting with no
lock held, the trace ends with no lock held and never over-releases. -/
def traceBalanced (es : List LockEvent) : Prop :=
  heldAfter es 0 0 = some (0, 0)

/-- Inbound method-call request, as the session runtime presents it: target
mount path, method name, parameter, and the caller's granted access level. -/
structure Request where
  path : String
  method : String
  param : RpcValue
  access : AccessLevel
  deriving DecidableEq

/-- Modelled from the spec: the `i32` parameter decoder of the method table
the shvclient `fixed_node!` macro generates for `"set" (param: i32)` (macro
expansion is not under src/): the parameter must decode to a signed 32-bit
integer, anything else fails. -/
def decodeI32 : RpcValue → Option Int
  | .vint n => if -(2 ^ 31) ≤ n ∧ n < 2 ^ 31 then some n else none
  | _ => none

/-- Modelled from the spec: the `String` parameter decoder of the method
table for `"set" (param: String)` on the text node. -/
def decodeString : RpcValue → Option String
  | .vstr s => some s
  | _ => none

/-- Outcome of dispatching one request (spec §4.2): no such path is "not
mine" and falls through; otherwise an error or the handler's result. -/
inductive Outcome where
  | notMine : Outcome
  | err : RpcError → Outcome
  | ok : RpcValue → Outcome
  deriving DecidableEq

/-- Result of one dispatch step over the whole device. -/
structure StepResult where
  state : State
  emitted : List Signal
  delivered : List Signal
  outcome : Outcome
  deriving DecidableEq

/-- Lifting of a handler's output to a dispatch step. -/
def ofHandler (h : HandlerOut) : StepResult :=
  { state := h.state, emitted := h.emitted, delivered := h.delivered,
    outcome := match h.response with
      | some (.ok v) => .ok v
      | some (.err e) => .err e
      | none => .notMine }

/-- Modelled from the spec: dispatch of the access-gated method table that
`fixed_node!` generates for the number node (the macro expansion is not
under src/; the declarations `"get" [IsGetter, Read]` and
`"set" [IsSetter, Write] (param: i32)` are main.rs lines 89 and 92):
unknown method yields `MethodNotFound`, a caller capability below the
method's requirement yields `PermissionDenied`, a parameter decode failure
yields `InvalidParameter`, otherwise the handler runs. -/
def dispatchNumber (st : State) (chanOpen : Bool) (rq : Request) : StepResult :=
  if rq.method = "get" then
    if rq.access.toNat < AccessLevel.read.toNat then
      { state := st, emitted := [], delivered := [], outcome := .err .permissionDenied }
    else
      ofHandler (number_get st)
  else if rq.method = "set" then
    if rq.access.toNat < AccessLevel.write.toNat then
      { state := st, emitted := [], delivered := [], outcome := .err .permissionDenied }
    else
      match decodeI32 rq.param with
      | none => { state := st, emitted := [], delivered := [], outcome := .err .invalidParameter }
      | some p => ofHandler (number_set st chanOpen p)
  else
    { state := st, emitted := [], delivered := [], outcome := .err .methodNotFound }

/-- Modelled from the spec: dispatch of the method table `fixed_node!`
generates for the text node (declarations at main.rs lines 104 and 108),
with the same outcome taxonomy as the number node. -/
def dispatchText (st : State) (chanOpen : Bool) (rq : Request) : StepResult :=
  if rq.method = "get" then
    if rq.access.toNat < AccessLevel.read.toNat then
      { state := st, emitted := [], delivered := [], outcome := .err .permissionDenied }
    else
      ofHandler (text_get st).1
  else if rq.method = "set" then
    if rq.access.toNat < AccessLevel.write.toNat then
      { state := st, emitted := [], delivered := [], outcome := .err .permissionDenied }
    else
      match decodeString rq.param with
      | none => { state := st, emitted := [], delivered := [], outcome := .err .invalidParameter }
      | some p => ofHandler (text_set st chanOpen p).1
  else
    { state := st, emitted := [], delivered := [], outcome := .err .methodNotFound }

/-- Mount paths registered in main (main.rs lines 124-125):
`.mount(NUMBER_MOUNT, number_node).mount(TEXT_MOUNT, text_node)`. -/
def mounts : List String := [NUMBER_MOUNT, TEXT_MOUNT]

/-- One request against the whole device: route by mount path; a request for
an unmounted path is not handled by this device. -/
def deviceStep (st : State) (chanOpen : Bool) (rq : Request) : StepResult :=
  if rq.path = NUMBER_MOUNT then dispatchNumber st chanOpen rq
  else if rq.path = TEXT_MOUNT then dispatchText st chanOpen rq
  else { state := st, emitted := [], delivered := [], outcome := .notMine }

/-! Helper lemmas: closed forms of the handler components. -/

theorem number_set_state_eq (st : State) (c : Bool) (v : Int) :
    (number_set st c v).state = if st.number = v then st else { st with number := v } := by
  by_cases h : st.number = v <;> simp [number_set, h]

theorem number_set_emitted_eq (st : State) (c : Bool) (v : Int) :
    (number_set st c v).emitted
      = if st.number = v then [] else [newSignal NUMBER_MOUNT SIG_CHNG (.vint v)] := by
  by_cases h : st.number = v <;> simp [number_set, h]

theorem number_set_response_eq (st : State) (c : Bool) (v : Int) :
    (number_set st c v).response = some (.ok (.vbool true)) := by
  by_cases h : st.number = v <;> simp [number_set, h]

theorem text_set_state_eq (st : State) (c : Bool) (p : String) :
    (text_set st c p).1.state = if st.text = p then st else { st with text := p } := by
  by_cases h : st.text = p <;> simp [text_set, h]

theorem text_set_emitted_eq (st : State) (c : Bool) (p : String) :
    (text_set st c p).1.emitted
      = if st.text = p then [] else [newSignal TEXT_MOUNT SIG_CHNG (.vstr p)] := by
  by_cases h : st.text = p <;> simp [text_set, h]

theorem text_set_response_eq (st : State) (c : Bool) (p : String) :
    (text_set st c p).1.response = some (.ok (.vbool true)) := by
  by_cases h : st.text = p <;> simp [text_set, h]

theorem text_set_trace_eq (st : State) (c : Bool) (p : String) :
    (text_set st c p).2
      = [.readAcq, .readRel]
        ++ (if st.text = p then []
            else [.writeAcq, .store p,
                  .send (newSignal TEXT_MOUNT SIG_CHNG (.vstr p)), .writeRel]) := by
  by_cases h : st.text = p <;> simp [text_set, h]

/-- C1: for every integer parameter v, the number node's `set` handler
returns `Some(Ok(true))`, also when v equals the stored number and neither
store nor signal happened. -/
theorem number_set_returns_true (st : State) (chanOpen : Bool) (v : Int) :
    (number_set st chanOpen v).response = some (.ok (.vbool true)) := by
  by_cases h : st.number = v <;> simp [number_set, h]

/-- C2: calling the number node's `set` twice in a row with the same v
returns `true` both times; the first call emits exactly one `chng` signal
carrying v precisely when v differs from the prior stored value, and the
second call emits no signal. -/
theorem number_set_idempotent (st : State) (chanOpen : Bool) (v : Int) :
    (number_set st chanOpen v).response = some (.ok (.vbool true)) ∧
    (number_set (number_set st chanOpen v).state chanOpen v).response
      = some (.ok (.vbool true)) ∧
    (number_set st chanOpen v).emitted
      = (if st.number = v then [] else [newSignal NUMBER_MOUNT SIG_CHNG (.vint v)]) ∧
    (number_set (number_set st chanOpen v).state chanOpen v).emitted = [] := by
  by_cases h : st.number = v <;> simp [number_set, h]

/-- C3: when v1 ≠ v2 and v1 differs from the stored number, `set v1` then
`set v2` emits exactly the two `chng` signals with payloads v1 then v2, and
a `get` afterwards returns v2. -/
theorem number_set_twice_two_signals (st : State) (chanOpen : Bool) (v1 v2 : Int)
    (h1 : v1 ≠ v2) (h2 : st.number ≠ v1) :
    (number_set st chanOpen v1).emitted
        ++ (number_set (number_set st chanOpen v1).state chanOpen v2).emitted
      = [newSignal NUMBER_MOUNT SIG_CHNG (.vint v1),
         newSignal NUMBER_MOUNT SIG_CHNG (.vint v2)] ∧
    (number_get (number_set (number_set st chanOpen v1).state chanOpen v2).state).response
      = some (.ok (.vint v2)) := by
  simp [number_set, number_get, h1, h2]

/-- Witness for C3 at the startup state with v1 = 1, v2 = 2. -/
theorem number_set_twice_two_signals_witness :
    (number_set mainInitState true 1).emitted
        ++ (number_set (number_set mainInitState true 1).state true 2).emitted
      = [newSignal NUMBER_MOUNT SIG_CHNG (.vint 1),
         newSignal NUMBER_MOUNT SIG_CHNG (.vint 2)] ∧
    (number_get (number_set (number_set mainInitState true 1).state true 2).state).response
      = some (.ok (.vint 2)) :=
  number_set_twice_two_signals mainInitState true 1 2 (by decide) (by decide)

/-- C4: the text node's `set` compares the stored text to the parameter
under a read acquisition that is released before anything further happens,
takes the write lock only when the two differ, stores the parameter and
sends the `chng` signal on TEXT_MOUNT while holding it, returns `true` in
every case, and every acquired lock is released. -/
theorem text_set_lock_discipline (st : State) (chanOpen : Bool) (p : String) :
    (text_set st chanOpen p).1.response = some (.ok (.vbool true)) ∧
    traceBalanced (text_set st chanOpen p).2 ∧
    List.take 2 (text_set st chanOpen p).2 = [.readAcq, .readRel] ∧
    ((LockEvent.writeAcq ∈ (text_set st chanOpen p).2) ↔ st.text ≠ p) ∧
    (text_set st chanOpen p).2
      = [.readAcq, .readRel]
        ++ (if st.text = p then []
            else [.writeAcq, .store p,
                  .send (newSignal TEXT_MOUNT SIG_CHNG (.vstr p)), .writeRel]) ∧
    (text_set st chanOpen p).1.emitted
      = (if st.text = p then [] else [newSignal TEXT_MOUNT SIG_CHNG (.vstr p)]) ∧
    (text_set st chanOpen p).1.state
      = (if st.text = p then st else { st with text := p }) := by
  by_cases h : st.text = p <;>
    simp [text_set, h, traceBalanced, heldAfter]

/-- C9: `get` of each node is read-only and total: it returns the currently
stored value, leaves the state unchanged, sends nothing, always answers with
a successful result, and the text read lock is released. -/
theorem get_read_only_total (st : State) :
    (number_get st).state = st ∧
    (number_get st).emitted = [] ∧
    (number_get st).response = some (.ok (.vint st.number)) ∧
    (text_get st).1.state = st ∧
    (text_get st).1.emitted = [] ∧
    (text_get st).1.response = some (.ok (.vstr st.text)) ∧
    traceBalanced (text_get st).2 :=
  ⟨rfl, rfl, rfl, rfl, rfl, rfl, rfl⟩

/-- C10: the state built at startup holds number = 0 and text = "", so a
`get` on either node before any successful `set` returns 0 resp. "". -/
theorem init_state_gets_zero_and_empty :
    mainInitState.number = 0 ∧ mainInitState.text = "" ∧
    (number_get mainInitState).response = some (.ok (.vint 0)) ∧
    (text_get mainInitState).1.response = some (.ok (.vstr "")) :=
  ⟨rfl, rfl, rfl, rfl⟩

/-- C5: a number-node `set` request that reaches the decoder with a
parameter that does not decode to a signed 32-bit integer yields
`InvalidParameter`, leaves the stored state unchanged and emits no signal. -/
theorem number_set_bad_param_invalid (st : State) (chanOpen : Bool) (rq : Request)
    (hp : rq.path = NUMBER_MOUNT) (hm : rq.method = "set")
    (ha : AccessLevel.write.toNat ≤ rq.access.toNat)
    (hd : decodeI32 rq.param = none) :
    (deviceStep st chanOpen rq).outcome = .err .invalidParameter ∧
    (deviceStep st chanOpen rq).state = st ∧
    (deviceStep st chanOpen rq).emitted = [] := by
  simp [deviceStep, dispatchNumber, hp, hm, hd, Nat.not_lt.mpr ha]

/-- Witness for C5 at the startup state with a null parameter. -/
theorem number_set_bad_param_invalid_witness :
    (deviceStep mainInitState true
        { path := "state/number", method := "set", param := .vnull,
          access := .admin }).outcome = .err .invalidParameter ∧
    (deviceStep mainInitState true
        { path := "state/number", method := "set", param := .vnull,
          access := .admin }).state = mainInitState ∧
    (deviceStep mainInitState true
        { path := "state/number", method := "set", param := .vnull,
          access := .admin }).emitted = [] :=
  number_set_bad_param_invalid mainInitState true
    { path := "state/number", method := "set", param := .vnull, access := .admin }
    rfl rfl (by decide) rfl

/-- C6: a `set` on either node with a caller capability strictly below Write
yields `PermissionDenied`, leaves the state unchanged and emits no signal. -/
theorem set_below_write_denied (st : State) (chanOpen : Bool) (rq : Request)
    (hp : rq.path = NUMBER_MOUNT ∨ rq.path = TEXT_MOUNT)
    (hm : rq.method = "set")
    (ha : rq.access.toNat < AccessLevel.write.toNat) :
    (deviceStep st chanOpen rq).outcome = .err .permissionDenied ∧
    (deviceStep st chanOpen rq).state = st ∧
    (deviceStep st chanOpen rq).emitted = [] := by
  rcases hp with hp | hp <;>
    simp [deviceStep, dispatchNumber, dispatchText, NUMBER_MOUNT, TEXT_MOUNT, hp, hm, ha]

/-- Witness for C6 at the startup state with Read capability on the text node. -/
theorem set_below_write_denied_witness :
    (deviceStep mainInitState true
        { path := "state/text", method := "set", param := .vstr "hi",
          access := .read }).outcome = .err .permissionDenied ∧
    (deviceStep mainInitState true
        { path := "state/text", method := "set", param := .vstr "hi",
          access := .read }).state = mainInitState ∧
    (deviceStep mainInitState true
        { path := "state/text", method := "set", param := .vstr "hi",
          access := .read }).emitted = [] :=
  set_below_write_denied mainInitState true
    { path := "state/text", method := "set", param := .vstr "hi", access := .read }
    (Or.inr rfl) rfl (by decide)

theorem dispatchNumber_chan_irrel (st : State) (rq : Request) (c1 c2 : Bool) :
    (dispatchNumber st c1 rq).state = (dispatchNumber st c2 rq).state ∧
    (dispatchNumber st c1 rq).emitted = (dispatchNumber st c2 rq).emitted ∧
    (dispatchNumber st c1 rq).outcome = (dispatchNumber st c2 rq).outcome := by
  unfold dispatchNumber
  by_cases hg : rq.method = "get"
  · simp [hg]
  · by_cases hs : rq.method = "set"
    · by_cases hacc : rq.access.toNat < AccessLevel.write.toNat
      · simp [hg, hs, hacc]
      · cases hd : decodeI32 rq.param with
        | none => simp [hg, hs, hacc, hd]
        | some p =>
          simp [hg, hs, hacc, hd, ofHandler, number_set_state_eq,
            number_set_emitted_eq, number_set_response_eq]
    · simp [hg, hs]

theorem dispatchText_chan_irrel (st : State) (rq : Request) (c1 c2 : Bool) :
    (dispatchText st c1 rq).state = (dispatchText st c2 rq).state ∧
    (dispatchText st c1 rq).emitted = (dispatchText st c2 rq).emitted ∧
    (dispatchText st c1 rq).outcome = (dispatchText st c2 rq).outcome := by
  unfold dispatchText
  by_cases hg : rq.method = "get"
  · simp [hg]
  · by_cases hs : rq.method = "set"
    · by_cases hacc : rq.access.toNat < AccessLevel.write.toNat
      · simp [hg, hs, hacc]
      · cases hd : decodeString rq.param with
        | none => simp [hg, hs, hacc, hd]
        | some p =>
          simp [hg, hs, hacc, hd, ofHandler, text_set_state_eq,
            text_set_emitted_eq, text_set_response_eq]
    · simp [hg, hs]

/-- C7: a failed signal enqueue is swallowed: whatever the request, the
resulting state, the signals the handler constructs and passes to the send,
and the outcome returned to the RPC caller are identical whether the
outbound channel accepts messages or not; only actual delivery differs. -/
theorem send_failure_swallowed (st : State) (rq : Request) (c1 c2 : Bool) :
    (deviceStep st c1 rq).state = (deviceStep st c2 rq).state ∧
    (deviceStep st c1 rq).emitted = (deviceStep st c2 rq).emitted ∧
    (deviceStep st c1 rq).outcome = (deviceStep st c2 rq).outcome := by
  unfold deviceStep
  by_cases hp : rq.path = NUMBER_MOUNT
  · simpa [hp] using dispatchNumber_chan_irrel st rq c1 c2
  · by_cases ht : rq.path = TEXT_MOUNT
    · simpa [hp, ht, NUMBER_MOUNT, TEXT_MOUNT] using dispatchText_chan_irrel st rq c1 c2
    · simp [hp, ht]

/-- Helper: every emitted list a device step can produce is empty or one
signal addressed to the request's own path with the fixed signal name. -/
theorem deviceStep_emitted_shape (st : State) (c : Bool) (rq : Request) :
    (deviceStep st c rq).emitted = [] ∨
    ∃ v, (deviceStep st c rq).emitted = [newSignal rq.path SIG_CHNG v] := by
  by_cases hp : rq.path = NUMBER_MOUNT
  · rw [deviceStep, if_pos hp, dispatchNumber]
    by_cases hg : rq.method = "get"
    · rw [if_pos hg]
      split
      · exact Or.inl rfl
      · exact Or.inl rfl
    · by_cases hs : rq.method = "set"
      · rw [if_neg hg, if_pos hs]
        split
        · exact Or.inl rfl
        · cases hd : decodeI32 rq.param with
          | none => simp [hd]
          | some p =>
            simp only [hd, ofHandler, number_set_emitted_eq]
            by_cases hv : st.number = p
            · simp [hv]
            · exact Or.inr ⟨.vint p, by simp [hv, hp]⟩
      · rw [if_neg hg, if_neg hs]
        exact Or.inl rfl
  · by_cases ht : rq.path = TEXT_MOUNT
    · rw [deviceStep, if_neg hp, if_pos ht, dispatchText]
      by_cases hg : rq.method = "get"
      · rw [if_pos hg]
        split
        · exact Or.inl rfl
        · exact Or.inl rfl
      · by_cases hs : rq.method = "set"
        · rw [if_neg hg, if_pos hs]
          split
          · exact Or.inl rfl
          · cases hd : decodeString rq.param with
            | none => simp [hd]
            | some p =>
              simp only [hd, ofHandler, text_set_emitted_eq]
              by_cases hv : st.text = p
              · simp [hv]
              · exact Or.inr ⟨.vstr p, by simp [hv, ht]⟩
        · rw [if_neg hg, if_neg hs]
          exact Or.inl rfl
    · rw [deviceStep, if_neg hp, if_neg ht]
      exact Or.inl rfl

/-- C8: exactly the two mount paths `state/number` and `state/text` are
registered, and every change signal a step emits carries the signal name
`chng` and is addressed to the emitting node's own mount path. -/
theorem mounts_and_signal_tagging :
    mounts = ["state/number", "state/text"] ∧
    ∀ (st : State) (chanOpen : Bool) (rq : Request) (sig : Signal),
      sig ∈ (deviceStep st chanOpen rq).emitted →
        sig.name = SIG_CHNG ∧ sig.path = rq.path := by
  refine ⟨rfl, ?_⟩
  intro st c rq sig hmem
  rcases deviceStep_emitted_shape st c rq with hsh | ⟨v, hsh⟩
  · rw [hsh] at hmem
    cases hmem
  · rw [hsh] at hmem
    rcases List.mem_singleton.mp hmem with rfl
    exact ⟨rfl, rfl⟩

/-- Witness for C8: a set of 5 on the number node at startup emits a signal,
and that signal is tagged `chng` on the request's path. -/
theorem mounts_and_signal_tagging_witness :
    (newSignal "state/number" "chng" (.vint 5)).name = SIG_CHNG ∧
    (newSignal "state/number" "chng" (.vint 5)).path
      = ({ path := "state/number", method := "set", param := .vint 5,
           access := .admin } : Request).path :=
  mounts_and_signal_tagging.2 mainInitState true
    { path := "state/number", method := "set", param := .vint 5, access := .admin }
    (newSignal "state/number" "chng" (.vint 5)) (by decide)

end ShvDevice
